import Mathlib

/-!
Shallow embedding of the Syncs client runtime (src/lib/syncs.js): connection
send primitives, command routing, pub/sub, scoped shared objects and the RMI
layer, with theorems settling the specification claims.

JavaScript values are modelled by `JsVal`; JS objects / `Map`s become
association lists with first-key lookup and in-place replacement, matching
`Map.get` / `Map.set` insertion-order semantics.  JS exceptions are modelled
with `Except Unit`; a function that cannot throw is total.
-/

/-- A JavaScript value as it appears in decoded JSON frames. -/
inductive JsVal where
  | null
  | bool (b : Bool)
  | num (n : Int)
  | str (s : String)
  | obj (fields : List (String × JsVal))

namespace JsVal

/-- JavaScript truthiness: `null`, `false`, `0` and `""` are falsy; any object
is truthy. -/
def truthy : JsVal → Bool
  | .null => false
  | .bool b => b
  | .num n => n != 0
  | .str s => s != ""
  | .obj _ => true

end JsVal

/-- First-match lookup on an association list, modelling `Map.get` /
JS-object property read (`undefined`, i.e. `none`, when absent). -/
def mapGet {α : Type} (m : List (String × α)) (k : String) : Option α :=
  match m with
  | [] => none
  | (k1, v) :: rest => if k1 = k then some v else mapGet rest k

/-- Model of `Map.set` / JS-object property write: replace the first binding of `k`
in place, or append a new binding at the end (insertion order preserved). -/
def mapSet {α : Type} (m : List (String × α)) (k : String) (v : α) :
    List (String × α) :=
  match m with
  | [] => [(k, v)]
  | (k1, v1) :: rest =>
      if k1 = k then (k, v) :: rest else (k1, v1) :: mapSet rest k v

/-- Model of `Map.delete`: drop the first binding of `k`. -/
def mapDelete {α : Type} (m : List (String × α)) (k : String) :
    List (String × α) :=
  match m with
  | [] => []
  | (k1, v1) :: rest =>
      if k1 = k then rest else (k1, v1) :: mapDelete rest k

theorem mapGet_mapSet_same {α : Type} (m : List (String × α)) (k : String)
    (v : α) : mapGet (mapSet m k v) k = some v := by
  induction m with
  | nil => simp [mapGet, mapSet]
  | cons hd tl ih =>
      cases hd with
      | mk k1 v1 =>
          by_cases h : k1 = k
          · simp [mapGet, mapSet, h]
          · simp [mapGet, mapSet, h, ih]

theorem mapSet_mapSet_same {α : Type} (m : List (String × α)) (k : String)
    (v w : α) : mapSet (mapSet m k v) k w = mapSet m k w := by
  induction m with
  | nil => simp [mapSet]
  | cons hd tl ih =>
      cases hd with
      | mk k1 v1 =>
          by_cases h : k1 = k
          · simp [mapSet, h]
          · simp [mapSet, h, ih]

/-! ## Command router (`parseMessage`, `handleOnMessage`) -/

/-- Model of `parseMessage` (src/lib/syncs.js:141-148): `JSON.parse(decodeURI(message))`
inside try/catch; any decode exception yields the invalid sentinel `false`.
The external decoder (JSON + percent-decoding, out of the core's scope) is
passed in as `decode`, with `Except Unit` modelling its possible throw. -/
def parseMessage (decode : String → Except Unit JsVal) (message : String) :
    JsVal :=
  match decode message with
  | .ok v => v
  | .error _ => JsVal.bool false

/-- Truthiness of a property read (`m.k`) on a decoded value: `undefined`
(absent field, or any read on a non-object) is falsy. -/
def fieldTruthy (m : JsVal) (k : String) : Bool :=
  match m with
  | .obj fs =>
      match mapGet fs k with
      | some v => v.truthy
      | none => false
  | _ => false

/-- What one inbound frame does after parsing (src/lib/syncs.js:64-78):
either `handleCommand` is invoked on the parsed value, or every registered
plain-message listener receives it in registration order, or nothing happens
(falsy parse result).  Returns `(listener deliveries, command dispatched)`.
Listeners are identified by values of an arbitrary type `L`. -/
def handleOnMessage {L : Type} (listeners : List L) (parsedMessage : JsVal) :
    List (L × JsVal) × Option JsVal :=
  if parsedMessage.truthy then
    if fieldTruthy parsedMessage ("command")
        && fieldTruthy parsedMessage ("type") then
      ([], some parsedMessage)
    else
      (listeners.map (fun l => (l, parsedMessage)), none)
  else
    ([], none)

/-- C8: for any string the decoder rejects, message parsing returns the
invalid sentinel `false` (and, being a total function, never throws), and the
frame produces no listener delivery and no command dispatch. -/
theorem parse_failure_is_silent {L : Type} (listeners : List L)
    (decode : String → Except Unit JsVal) (message : String)
    (hfail : decode message = .error ()) :
    parseMessage decode message = JsVal.bool false ∧
      handleOnMessage listeners (parseMessage decode message) = ([], none) := by
  constructor
  · simp [parseMessage, hfail]
  · simp [parseMessage, hfail, handleOnMessage, JsVal.truthy]

/-- Witness for C8 at a concrete failing decoder and frame. -/
theorem parse_failure_is_silent_witness :
    parseMessage (fun _ => .error ()) ("not json") = JsVal.bool false ∧
      handleOnMessage ([0]) (parseMessage (fun _ => .error ()) ("not json")) =
        ([], none) :=
  parse_failure_is_silent ([0]) (fun _ => .error ()) ("not json") rfl

/-- C10: a decoded frame whose `command` field is truthy but whose `type`
field is absent or falsy is not dispatched as a command; it is forwarded
verbatim to every registered plain-message listener in registration order —
the same forwarding path a frame with no envelope markers takes, and the same
deliveries that path produces for this frame. -/
theorem untyped_command_forwarded {L : Type} (listeners : List L)
    (m : JsVal)
    (hcmd : fieldTruthy m ("command") = true)
    (htyp : fieldTruthy m ("type") = false) :
    handleOnMessage listeners m =
      (listeners.map (fun l => (l, m)), none) := by
  cases m with
  | obj fields => simp [handleOnMessage, htyp, JsVal.truthy]
  | null => simp [fieldTruthy] at hcmd
  | bool b => simp [fieldTruthy] at hcmd
  | num n => simp [fieldTruthy] at hcmd
  | str s => simp [fieldTruthy] at hcmd

/-- Witness for C10 at a concrete frame with `command: true` and no `type`. -/
theorem untyped_command_forwarded_witness :
    fieldTruthy (JsVal.obj ([(("command"), JsVal.bool true)])) ("command")
        = true ∧
    handleOnMessage ([0, 1]) (JsVal.obj ([(("command"), JsVal.bool true)])) =
      ([(0, JsVal.obj ([(("command"), JsVal.bool true)])),
        (1, JsVal.obj ([(("command"), JsVal.bool true)]))], none) :=
  ⟨by rfl,
    untyped_command_forwarded ([0, 1])
      (JsVal.obj ([(("command"), JsVal.bool true)])) (by rfl) (by rfl)⟩

/-! ## Pub/Sub layer (`subscribe`, `handleEvent`) -/

/-- Model of `subscribe` (src/lib/syncs.js:254-259): create the event's callback set on
first use, then `Set.add` the callback.  A JS `Set` keeps insertion order and
ignores an `add` of an element already present.  Callbacks are identified by
`Nat` handles (reference identity). -/
def subscribe (subs : List (String × List Nat)) (event : String) (cb : Nat) :
    List (String × List Nat) :=
  match mapGet subs event with
  | none => mapSet subs event [cb]
  | some set => mapSet subs event (if cb ∈ set then set else set ++ [cb])

/-- Model of `handleEvent` (src/lib/syncs.js:239-248): if `command.event` is truthy
(a non-empty event name) and a subscription set exists, invoke every callback
in the set with `command.data`.  Returns the list of invocations. -/
def handleEvent (subs : List (String × List Nat)) (event : String)
    (data : JsVal) : List (Nat × JsVal) :=
  if event ≠ "" then
    match mapGet subs event with
    | some set => set.map (fun cb => (cb, data))
    | none => []
  else []

/-- C9: subscription is idempotent in the callback reference — registering the
same callback twice under one event leaves the table exactly as one
registration does — and handling one inbound event command for that event then
invokes that callback exactly once (here: the sole delivery of the frame). -/
theorem subscribe_set_semantics (subs : List (String × List Nat))
    (event : String) (cb : Nat) :
    subscribe (subscribe subs event cb) event cb = subscribe subs event cb ∧
      (∀ data : JsVal, event ≠ "" →
        handleEvent (subscribe (subscribe [] event cb) event cb) event data =
          [(cb, data)]) := by
  constructor
  · cases h : mapGet subs event with
    | none =>
        simp only [subscribe, h, mapGet_mapSet_same]
        simp [mapSet_mapSet_same]
    | some set =>
        by_cases hc : cb ∈ set
        · simp only [subscribe, h, if_pos hc, mapGet_mapSet_same]
          simp [hc, mapSet_mapSet_same]
        · simp only [subscribe, h, if_neg hc, mapGet_mapSet_same]
          simp [mapSet_mapSet_same]
  · intro data h
    simp [subscribe, handleEvent, mapGet, mapSet, h]

/-- Witness for C9 at event `"e"`, callback handle `0`, payload `null`. -/
theorem subscribe_set_semantics_witness :
    subscribe (subscribe [] ("e") 0) ("e") 0 = subscribe [] ("e") 0 ∧
      handleEvent (subscribe (subscribe [] ("e") 0) ("e") 0) ("e") JsVal.null =
        [(0, JsVal.null)] :=
  ⟨(subscribe_set_semantics [] ("e") 0).1,
    (subscribe_set_semantics [] ("e") 0).2 JsVal.null (by decide)⟩

/-! ## Shared-object layer (`SharedObject`, `handleSync`) -/

/-- The payload handed to a shared object's change listener:
`{values, by: 'client' | 'server'}` (`byWhom` models the `by` field). -/
structure ChangeEvent where
  values : List (String × JsVal)
  byWhom : String

/-- One `SharedObject` (src/lib/syncs.js:506-637): scope tag, `readOnly`
flag, the mirrored key→value data (`rawData.data`) and whether a change
listener is currently registered (`onChangeHandler`). -/
structure SharedObject where
  name : String
  type : String
  readOnly : Bool
  data : List (String × JsVal)
  hasChangeHandler : Bool

/-- Model of `SharedObject.globalLevel` (src/lib/syncs.js:518-527). -/
def SharedObject.globalLevel (name : String) (initData : List (String × JsVal)) :
    SharedObject :=
  { name := name, type := "GLOBAL", readOnly := true, data := initData,
    hasChangeHandler := false }

/-- Model of `SharedObject.groupLevel` (src/lib/syncs.js:535-544). -/
def SharedObject.groupLevel (name : String) (initData : List (String × JsVal)) :
    SharedObject :=
  { name := name, type := "GROUP", readOnly := true, data := initData,
    hasChangeHandler := false }

/-- Model of `SharedObject.clientLevel` (src/lib/syncs.js:552-561). -/
def SharedObject.clientLevel (name : String) (initData : List (String × JsVal)) :
    SharedObject :=
  { name := name, type := "CLIENT", readOnly := false, data := initData,
    hasChangeHandler := false }

/-- Model of `onApply` with a listener argument (src/lib/syncs.js:586-591): calling the
reactive view with a function registers it as the sole change listener. -/
def SharedObject.registerListener (so : SharedObject) : SharedObject :=
  { so with hasChangeHandler := true }

/-- Model of `onGet` (src/lib/syncs.js:580-585): the mirrored value, or `null` when the
key is unset. -/
def SharedObject.onGet (so : SharedObject) (property : String) : JsVal :=
  match mapGet so.data property with
  | some v => v
  | none => JsVal.null

/-- Model of `setProperties` (src/lib/syncs.js:630-637): overwrite each key of the
incoming batch in the mirror, then notify the change listener (if any) once
with `{values, by:'server'}`.  Returns the updated object and the listener
invocations performed. -/
def SharedObject.setProperties (so : SharedObject)
    (values : List (String × JsVal)) : SharedObject × List ChangeEvent :=
  ({ so with data := values.foldl (fun d kv => mapSet d kv.1 kv.2) so.data },
   if so.hasChangeHandler then [{ values := values, byWhom := "server" }]
   else [])

/-- An outbound `sync` command as built by `sendSyncCommand`. -/
structure SyncOutCmd where
  type : String
  name : String
  scope : String
  key : String
  value : JsVal

/-- Model of `sendSyncCommand` (src/lib/syncs.js:609-618): builds
`{type:'sync', name, scope:'CLIENT', key, value: rawData.data[key]}` and hands
it to the connection's `sendCommand` (the raw-data read yields the value just
written; an absent key would read as undefined, modelled `null`). -/
def SharedObject.sendSyncCommand (so : SharedObject) (property : String) :
    SyncOutCmd :=
  { type := "sync", name := so.name, scope := "CLIENT", key := property,
    value := so.onGet property }

/-- Model of `onSet` (src/lib/syncs.js:592-604): a read-only object refuses the write
(`false`, nothing else happens); otherwise the mirror is updated, the change
listener (if any) is invoked once with `{values:{key: value}, by:'client'}`,
and exactly one outbound `sync` command is emitted.  Returns
`(object, success, listener invocations, outbound sync commands)`. -/
def SharedObject.onSet (so : SharedObject) (property : String) (value : JsVal) :
    SharedObject × Bool × List ChangeEvent × List SyncOutCmd :=
  if so.readOnly then
    (so, false, [], [])
  else
    let so2 : SharedObject := { so with data := mapSet so.data property value }
    (so2, true,
     if so2.hasChangeHandler then
       [{ values := [(property, value)], byWhom := "client" }]
     else [],
     [so2.sendSyncCommand property])

/-- C6: a write to a read-only (GLOBAL/GROUP) reactive view changes nothing,
signals failure and emits no sync command — and the three scope constructors
do set `readOnly` to true, true, false respectively; a write of `v` to key `k`
on a CLIENT object updates the mirror so a read of `k` returns `v`, invokes
the registered change listener (if any) exactly once with
`{values:{k: v}, by:'client'}`, and emits exactly one outbound sync command
`{scope:'CLIENT', name, key: k, value: v}`. -/
theorem shared_write_policy (so : SharedObject) (k : String) (v : JsVal) :
    ((SharedObject.globalLevel (so.name) []).readOnly = true ∧
      (SharedObject.groupLevel (so.name) []).readOnly = true ∧
      (SharedObject.clientLevel (so.name) []).readOnly = false) ∧
    (so.readOnly = true → so.onSet k v = (so, false, [], [])) ∧
    (so.readOnly = false →
      (so.onSet k v).1.onGet k = v ∧
      (so.onSet k v).2.1 = true ∧
      (so.onSet k v).2.2.1 =
        (if so.hasChangeHandler then
          [{ values := [(k, v)], byWhom := "client" }] else []) ∧
      (so.onSet k v).2.2.2 =
        [{ type := "sync", name := so.name, scope := "CLIENT", key := k,
           value := v }]) := by
  refine ⟨⟨rfl, rfl, rfl⟩, ?_, ?_⟩
  · intro h
    simp [SharedObject.onSet, h]
  · intro h
    simp [SharedObject.onSet, h, SharedObject.onGet, SharedObject.sendSyncCommand,
      mapGet_mapSet_same]

/-- Witness for C6: a GLOBAL object refuses a write; a CLIENT object with a
registered listener accepts one, reads back the value, notifies once and
emits one sync command. -/
theorem shared_write_policy_witness :
    ((SharedObject.globalLevel ("cfg") []).onSet ("bg") (JsVal.str ("blue")) =
      (SharedObject.globalLevel ("cfg") [], false, [], [])) ∧
    (((SharedObject.clientLevel ("note") []).registerListener.onSet
          ("title") (JsVal.str ("Hi"))).1.onGet ("title") = JsVal.str ("Hi") ∧
      ((SharedObject.clientLevel ("note") []).registerListener.onSet
          ("title") (JsVal.str ("Hi"))).2.2.1 =
        [{ values := [(("title"), JsVal.str ("Hi"))], byWhom := "client" }] ∧
      ((SharedObject.clientLevel ("note") []).registerListener.onSet
          ("title") (JsVal.str ("Hi"))).2.2.2 =
        [{ type := "sync", name := "note", scope := "CLIENT", key := "title",
           value := JsVal.str ("Hi") }]) := by
  refine ⟨?_, ?_, ?_, ?_⟩
  · exact (shared_write_policy (SharedObject.globalLevel ("cfg") [])
      ("bg") (JsVal.str ("blue"))).2.1 rfl
  · exact ((shared_write_policy
      ((SharedObject.clientLevel ("note") []).registerListener)
      ("title") (JsVal.str ("Hi"))).2.2 rfl).1
  · exact ((shared_write_policy
      ((SharedObject.clientLevel ("note") []).registerListener)
      ("title") (JsVal.str ("Hi"))).2.2 rfl).2.2.1
  · exact ((shared_write_policy
      ((SharedObject.clientLevel ("note") []).registerListener)
      ("title") (JsVal.str ("Hi"))).2.2 rfl).2.2.2

/-- An inbound `sync` command's fields (`group` only meaningful for scope
`GROUP`). -/
structure SyncCmd where
  scope : String
  group : String
  name : String
  values : List (String × JsVal)

/-- The three shared-state registries owned by the connection
(src/lib/syncs.js:17-19). -/
structure SharedStores where
  globalSharedObjects : List (String × SharedObject)
  groupSharedObjects : List (String × List (String × SharedObject))
  clientSharedObjects : List (String × SharedObject)

/-- Model of `setGlobalSharedObject` (src/lib/syncs.js:302-309): if the named object
exists, `setProperties(command.values)` is applied to it; otherwise a fresh
object is created via `SharedObject.globalLevel(command.name, {}, this)` —
note the else-branch neither applies `command.values` nor notifies anyone.
Returns the updated registries and the listener invocations performed. -/
def setGlobalSharedObject (st : SharedStores) (cmd : SyncCmd) :
    SharedStores × List ChangeEvent :=
  match mapGet st.globalSharedObjects cmd.name with
  | some so =>
      let r := so.setProperties cmd.values
      let g2 := mapSet st.globalSharedObjects cmd.name r.1
      ({ st with globalSharedObjects := g2 }, r.2)
  | none =>
      let obj := SharedObject.globalLevel cmd.name []
      let g2 := mapSet st.globalSharedObjects cmd.name obj
      ({ st with globalSharedObjects := g2 }, [])

/-- Model of `setGroupSharedObject` (src/lib/syncs.js:314-325): ensure the group's
inner map exists, then update-or-create the named object inside it, with the
same create-without-applying-values else-branch as the global tier. -/
def setGroupSharedObject (st : SharedStores) (cmd : SyncCmd) :
    SharedStores × List ChangeEvent :=
  let groups :=
    match mapGet st.groupSharedObjects cmd.group with
    | some _ => st.groupSharedObjects
    | none => mapSet st.groupSharedObjects cmd.group []
  match mapGet groups cmd.group with
  | some grp =>
      match mapGet grp cmd.name with
      | some so =>
          let r := so.setProperties cmd.values
          let g2 := mapSet groups cmd.group (mapSet grp cmd.name r.1)
          ({ st with groupSharedObjects := g2 }, r.2)
      | none =>
          let obj := SharedObject.groupLevel cmd.name []
          let g2 := mapSet groups cmd.group (mapSet grp cmd.name obj)
          ({ st with groupSharedObjects := g2 }, [])
  | none =>
      ({ st with groupSharedObjects := groups }, [])

/-- Model of `setClientSharedObject` (src/lib/syncs.js:330-337): like the global tier,
against the client registry, creating via `SharedObject.clientLevel`. -/
def setClientSharedObject (st : SharedStores) (cmd : SyncCmd) :
    SharedStores × List ChangeEvent :=
  match mapGet st.clientSharedObjects cmd.name with
  | some so =>
      let r := so.setProperties cmd.values
      let c2 := mapSet st.clientSharedObjects cmd.name r.1
      ({ st with clientSharedObjects := c2 }, r.2)
  | none =>
      let obj := SharedObject.clientLevel cmd.name []
      let c2 := mapSet st.clientSharedObjects cmd.name obj
      ({ st with clientSharedObjects := c2 }, [])

/-- Model of `handleSync` (src/lib/syncs.js:285-297): dispatch on the command's
`scope`; any other scope value is a no-op. -/
def handleSync (st : SharedStores) (cmd : SyncCmd) :
    SharedStores × List ChangeEvent :=
  if cmd.scope = "GLOBAL" then setGlobalSharedObject st cmd
  else if cmd.scope = "GROUP" then setGroupSharedObject st cmd
  else if cmd.scope = "CLIENT" then setClientSharedObject st cmd
  else (st, [])

/-- Registries with no shared object yet. -/
def emptyStores : SharedStores :=
  { globalSharedObjects := [], groupSharedObjects := [],
    clientSharedObjects := [] }

/-- The spec's own example command:
`{type:'sync', scope:'GLOBAL', name:'settings', values:{bg:'blue', v:2}}`. -/
def settingsSyncCmd : SyncCmd :=
  { scope := "GLOBAL", group := "", name := "settings",
    values := [(("bg"), JsVal.str ("blue")), (("v"), JsVal.num 2)] }

/-- C1 (code bug): receiving a `sync` for a shared object that does not yet
exist locally creates the object **empty** and stops: the command's `values`
batch is discarded — a subsequent read of `"bg"` returns `null`, not
`"blue"` — and no change-listener invocation happens.  The claimed
behaviour (create, apply every key, notify once with `by:'server'`) is what
`setProperties` would do, but the else-branch of `setGlobalSharedObject`
never calls it. -/
theorem sync_create_drops_values :
    handleSync emptyStores settingsSyncCmd =
      ({ globalSharedObjects :=
          [(("settings"), SharedObject.globalLevel ("settings") [])],
         groupSharedObjects := [], clientSharedObjects := [] }, []) ∧
    (SharedObject.globalLevel ("settings") []).onGet ("bg") = JsVal.null := by
  constructor
  · simp [handleSync, settingsSyncCmd, setGlobalSharedObject, emptyStores,
      mapGet, mapSet]
  · rfl

/-! ## Connection manager (`send`, `sendCommand`, `disconnect`, close
handling) -/

/-- Model of `send` (src/lib/syncs.js:209-215): only while `online`, serialize and
call `socket.send`, returning `true`; otherwise return `false` without
touching the socket.  `transportOk` models whether the underlying
`socket.send` call succeeds — `send` has no try/catch, so a transport throw
propagates (`Except.error`).  The emitted frames carry the message value
(serialization is the out-of-scope JSON/percent encoding). -/
def send (online : Bool) (transportOk : Bool) (message : JsVal) :
    Except Unit (Bool × List JsVal) :=
  if online then
    if transportOk then .ok (true, [message]) else .error ()
  else .ok (false, [])

/-- Model of `sendCommand` (src/lib/syncs.js:221-233): inside try/catch, set
`message.command = true`, call `socket.send`, return `true`; any throw is
caught and reported as `false`.  Note it never consults `online`. -/
def sendCommand (online : Bool) (transportOk : Bool)
    (message : List (String × JsVal)) : Bool × List JsVal :=
  let tagged := JsVal.obj (mapSet message ("command") (JsVal.bool true))
  if transportOk then (true, [tagged]) else (false, [])

/-- C4 (amended): `send` transmits only while online and returns whether it
was sent; `sendCommand` tags the envelope with `command: true`, never throws
(it is a total function returning the boolean outcome), but attempts
transmission regardless of the `online` flag — its result depends only on
whether the transport accepts the frame. -/
theorem send_primitives (online transportOk : Bool) (message : JsVal)
    (cmdMessage : List (String × JsVal)) :
    (online = false → send online transportOk message = .ok (false, [])) ∧
    (send online transportOk message = .ok (true, [message]) ↔
      online = true ∧ transportOk = true) ∧
    (sendCommand online transportOk cmdMessage =
      if transportOk then
        (true, [JsVal.obj (mapSet cmdMessage ("command") (JsVal.bool true))])
      else (false, [])) := by
  refine ⟨?_, ?_, ?_⟩
  · intro h
    simp [send, h]
  · cases online <;> cases transportOk <;> simp [send]
  · cases transportOk <;> simp [sendCommand]

/-- Witness for C4's amended statement at concrete flag values. -/
theorem send_primitives_witness :
    send false true JsVal.null = .ok (false, []) ∧
      sendCommand false true [] =
        (true, [JsVal.obj ([(("command"), JsVal.bool true)])]) :=
  ⟨(send_primitives false true JsVal.null []).1 rfl, by
    have h := (send_primitives false true JsVal.null []).2.2
    simpa using h⟩

/-- Counterexample to C4 as stated: with the connection not online but the
transport accepting frames (exactly the handshake situation in which
`sendSocketId` replies to `getSocketId`), `sendCommand` transmits one tagged
frame — so it is false that neither operation transmits while the connection
is not online. -/
theorem sendCommand_transmits_while_offline :
    sendCommand false true [(("type"), JsVal.str ("reportSocketId"))] =
      (true, [JsVal.obj ([(("type"), JsVal.str ("reportSocketId")),
                          (("command"), JsVal.bool true)])]) := by
  rfl

/-- Connection flags relevant to close handling (src/lib/syncs.js:82-110),
plus whether close/disconnect callbacks are registered. -/
structure ConnState where
  online : Bool
  handledClose : Bool
  autoReconnect : Bool
  hasCloseListener : Bool
  hasDisconnectListener : Bool

/-- Observable effects of the transport close event. -/
inductive CloseAction where
  | closeCallback
  | disconnectCallback
  | scheduleReconnect
deriving DecidableEq

/-- Model of `disconnect` (src/lib/syncs.js:107-110): mark the next close as
intentional and close the transport (whose close event is then observed by
`handleCloseEvent`). -/
def disconnect (s : ConnState) : ConnState :=
  { s with handledClose := true }

/-- The close-event handler (src/lib/syncs.js:84-102): set `online = false`;
if the close was intentional or auto-reconnect is disabled, reset
`handledClose` and fire the close callback (if registered); otherwise fire
the disconnect callback (if registered) and schedule a reconnect attempt. -/
def handleCloseEvent (s : ConnState) : ConnState × List CloseAction :=
  let s1 : ConnState := { s with online := false }
  if s1.handledClose || !s1.autoReconnect then
    ({ s1 with handledClose := false },
     if s1.hasCloseListener then [CloseAction.closeCallback] else [])
  else
    (s1,
     (if s1.hasDisconnectListener then [CloseAction.disconnectCallback]
      else []) ++ [CloseAction.scheduleReconnect])

/-- C7: after `disconnect()`, observing the transport close fires the close
callback (when one is registered) and nothing else: no disconnect callback,
no reconnect attempt scheduled, and `handledClose` is reset to `false`. -/
theorem disconnect_close_is_intentional (s : ConnState)
    (h : s.hasCloseListener = true) :
    handleCloseEvent (disconnect s) =
      ({ s with online := false, handledClose := false },
       [CloseAction.closeCallback]) := by
  obtain ⟨o, hc, ar, hcl, hdl⟩ := s
  simp only [ConnState.mk.injEq] at h ⊢
  simp [disconnect, handleCloseEvent, h]

/-- Witness for C7 at a concrete connection state. -/
theorem disconnect_close_is_intentional_witness :
    handleCloseEvent (disconnect
      { online := true, handledClose := false, autoReconnect := true,
        hasCloseListener := true, hasDisconnectListener := true }) =
      ({ online := false, handledClose := false, autoReconnect := true,
         hasCloseListener := true, hasDisconnectListener := true },
       [CloseAction.closeCallback]) :=
  disconnect_close_is_intentional
    { online := true, handledClose := false, autoReconnect := true,
      hasCloseListener := true, hasDisconnectListener := true } rfl

/-! ## RMI layer -/

/-- Behaviour of a registered local function when invoked: return an
immediate value, return a deferred value that later resolves or rejects, or
throw synchronously at call time. -/
inductive FnOutcome where
  | value (v : JsVal)
  | resolves (v : JsVal)
  | rejects
  | throws

/-- An outbound `rmi-result` command as built by `sendRmiResultCommand`
(src/lib/syncs.js:493-500). -/
structure RmiResultOut where
  type : String
  id : String
  result : JsVal
  error : JsVal

/-- Model of `sendRmiResultCommand(result, error, id)` (src/lib/syncs.js:493-500). -/
def sendRmiResultCommand (result error : JsVal) (id : String) : RmiResultOut :=
  { type := "rmi-result", id := id, result := result, error := error }

/-- Model of `handleRMICommand` (src/lib/syncs.js:396-413): if the named function is
registered, call it — the call itself is **not** wrapped in try/catch, so a
synchronous throw propagates out of the handler (`Except.error`) with no
reply.  A returned deferred value is awaited: resolution replies with the
value, rejection replies with `error:'function error'`.  An immediate value
is replied at once; an unregistered name replies `error:'undefined'`. -/
def handleRMICommand (functions : List (String × FnOutcome)) (name : String)
    (id : String) : Except Unit (List RmiResultOut) :=
  match mapGet functions name with
  | some outcome =>
      match outcome with
      | .value v => .ok [sendRmiResultCommand v JsVal.null id]
      | .resolves v => .ok [sendRmiResultCommand v JsVal.null id]
      | .rejects =>
          .ok [sendRmiResultCommand JsVal.null (JsVal.str ("function error")) id]
      | .throws => .error ()
  | none => .ok [sendRmiResultCommand JsVal.null (JsVal.str ("undefined")) id]

/-- Counterexample to C3 as stated: a registered function that throws
synchronously makes the handler itself raise — no `rmi-result` (in
particular, not the claimed single `error:'function error'` reply) is sent
and the failure escapes as a local exception. -/
theorem rmi_sync_throw_escapes :
    handleRMICommand [(("boom"), FnOutcome.throws)] ("boom") ("id-1") =
        .error () ∧
      handleRMICommand [(("boom"), FnOutcome.throws)] ("boom") ("id-1") ≠
        .ok [sendRmiResultCommand JsVal.null (JsVal.str ("function error"))
          ("id-1")] := by
  exact ⟨rfl, by simp [handleRMICommand, mapGet]⟩

/-- C3 (amended): only a *rejected deferred value* from a registered local
function is translated into exactly one `rmi-result` reply with
`error:'function error'` and no escaping exception; a synchronous throw is
not caught — it propagates out of the command handler and no reply is
sent. -/
theorem rmi_rejection_replies_function_error
    (functions : List (String × FnOutcome)) (name id : String) :
    (mapGet functions name = some FnOutcome.rejects →
      handleRMICommand functions name id =
        .ok [sendRmiResultCommand JsVal.null (JsVal.str ("function error"))
          id]) ∧
    (mapGet functions name = some FnOutcome.throws →
      handleRMICommand functions name id = .error ()) := by
  constructor
  · intro h
    simp [handleRMICommand, h]
  · intro h
    simp [handleRMICommand, h]

/-- Witness for C3's amended statement at a concrete registry. -/
theorem rmi_rejection_replies_function_error_witness :
    handleRMICommand [(("f"), FnOutcome.rejects)] ("f") ("id-2") =
        .ok [sendRmiResultCommand JsVal.null (JsVal.str ("function error"))
          ("id-2")] ∧
      handleRMICommand [(("g"), FnOutcome.throws)] ("g") ("id-3") =
        .error () :=
  ⟨(rmi_rejection_replies_function_error [(("f"), FnOutcome.rejects)]
      ("f") ("id-2")).1 rfl,
    (rmi_rejection_replies_function_error [(("g"), FnOutcome.throws)]
      ("g") ("id-3")).2 rfl⟩

/-- The callable produced by a property access on the `remote` proxy
(src/lib/syncs.js:432-445): `onGetRemoteMethod` draws **one** correlation
identifier at access time and closes over it — every later invocation of this
callable reuses that same identifier. -/
structure RemoteCallable where
  property : String
  id : String

/-- Model of `onGetRemoteMethod(target, property, receiver)` with the freshly drawn
`generateRMIRequestUID()` value passed in as `freshId`. -/
def onGetRemoteMethod (property : String) (freshId : String) : RemoteCallable :=
  { property := property, id := freshId }

/-- An outbound `rmi` command as built by `sendRMICommand`
(src/lib/syncs.js:479-486). -/
structure RmiOutCmd where
  type : String
  id : String
  name : String
  args : List JsVal

/-- The pending-call table (`rmiResultCallbacks`): correlation id → promise
token, where the token (a serial number) identifies the resolve/reject pair
of the deferred value returned to the caller. -/
structure PendingState where
  rmiResultCallbacks : List (String × Nat)
  nextPromiseToken : Nat

/-- One invocation of a remote callable (the closure body,
src/lib/syncs.js:435-444): send `{type:'rmi', id, name, args}` and register
the new deferred value's resolve/reject pair under the callable's captured
id.  Returns the wire command, the token of the deferred value handed back
to the caller, and the updated pending table. -/
def invokeRemoteCallable (c : RemoteCallable) (args : List JsVal)
    (s : PendingState) : RmiOutCmd × Nat × PendingState :=
  ({ type := "rmi", id := c.id, name := c.property, args := args },
   s.nextPromiseToken,
   { rmiResultCallbacks := mapSet s.rmiResultCallbacks c.id s.nextPromiseToken,
     nextPromiseToken := s.nextPromiseToken + 1 })

/-- A pending table with no outstanding call. -/
def emptyPending : PendingState :=
  { rmiResultCallbacks := [], nextPromiseToken := 0 }

/-- A callable obtained once from the remote surface: the id is drawn at
property-access time. -/
def weatherCallable : RemoteCallable :=
  onGetRemoteMethod ("getWeather") ("id-0")

/-- First invocation of that callable. -/
def firstInvocation : RmiOutCmd × Nat × PendingState :=
  invokeRemoteCallable weatherCallable [JsVal.str ("Paris")] emptyPending

/-- Second invocation of the same callable, on the state the first left. -/
def secondInvocation : RmiOutCmd × Nat × PendingState :=
  invokeRemoteCallable weatherCallable [JsVal.str ("London")]
    firstInvocation.2.2

/-- Counterexample to C2 as stated: the identifier is drawn once per property
access, not per call — two successive invocations of the same callable send
two `rmi` commands carrying the *same* id, and the second registration
overwrites the first pending pair (token `0` is lost, only token `1`
remains), so identifiers are not unique per outstanding call. -/
theorem remote_callable_reuses_id :
    firstInvocation.1.id = "id-0" ∧ secondInvocation.1.id = "id-0" ∧
      secondInvocation.2.2.rmiResultCallbacks = [(("id-0"), 1)] := by
  exact ⟨rfl, rfl, rfl⟩

/-- Keys absent from an association list look up to `none`. -/
theorem mapGet_not_mem {α : Type} (m : List (String × α)) (k : String)
    (h : k ∉ m.map Prod.fst) : mapGet m k = none := by
  induction m with
  | nil => rfl
  | cons hd tl ih =>
      obtain ⟨k1, v1⟩ := hd
      simp only [List.map_cons, List.mem_cons] at h
      push_neg at h
      have hne : k1 ≠ k := fun hh => h.1 hh.symm
      simp [mapGet, hne, ih h.2]

/-- Deleting a key from a duplicate-free association list (a JS `Map` never
holds duplicate keys) makes it look up to `none`. -/
theorem mapGet_mapDelete_same_nodup {α : Type} (m : List (String × α))
    (k : String) (h : (m.map Prod.fst).Nodup) :
    mapGet (mapDelete m k) k = none := by
  induction m with
  | nil => rfl
  | cons hd tl ih =>
      obtain ⟨k1, v1⟩ := hd
      simp only [List.map_cons, List.nodup_cons] at h
      by_cases hk : k1 = k
      · subst hk
        simp [mapDelete, mapGet_not_mem tl k1 h.1]
      · simp [mapDelete, mapGet, hk, ih h.2]

/-- A resolution of the deferred value identified by its promise token:
the success continuation applied to `result`, or the failure continuation
applied to `error`. -/
inductive Resolution where
  | resolvedWith (token : Nat) (v : JsVal)
  | rejectedWith (token : Nat) (e : JsVal)

/-- Model of `handleRmiResultCommand` (src/lib/syncs.js:463-472): fetch the pending
pair by `command.id`; a truthy `error` field rejects, otherwise the `result`
field resolves; then the entry is deleted.  When no pending pair exists for
the id (e.g. it was already consumed), `callbacks` is undefined and the
continuation access throws a TypeError (`Except.error`) — before anything is
resolved or rejected and before the delete line runs. -/
def handleRmiResultCommand (pending : List (String × Nat)) (id : String)
    (result error : JsVal) :
    Except Unit (List Resolution × List (String × Nat)) :=
  match mapGet pending id with
  | some token =>
      if error.truthy then
        .ok ([Resolution.rejectedWith token error], mapDelete pending id)
      else
        .ok ([Resolution.resolvedWith token result], mapDelete pending id)
  | none => .error ()

/-- C5: an `rmi-result` whose id matches a pending call performs exactly one
resolution — rejecting when an `error` field is present (truthy), resolving
with `result` otherwise — and removes the pending entry; a second
`rmi-result` with the same, already consumed id resolves and rejects nothing
further (the handler instead raises a TypeError on the missing entry), and an
unknown id likewise produces no resolution. -/
theorem rmi_result_single_resolution (pending : List (String × Nat))
    (id : String) (result error : JsVal) :
    (∀ token, mapGet pending id = some token →
      handleRmiResultCommand pending id result error =
        .ok ([if error.truthy then Resolution.rejectedWith token error
              else Resolution.resolvedWith token result],
             mapDelete pending id) ∧
      ((pending.map Prod.fst).Nodup →
        handleRmiResultCommand (mapDelete pending id) id result error =
          .error ())) ∧
    (mapGet pending id = none →
      handleRmiResultCommand pending id result error = .error ()) := by
  constructor
  · intro token h
    constructor
    · by_cases he : error.truthy <;> simp [handleRmiResultCommand, h, he]
    · intro hnd
      simp [handleRmiResultCommand, mapGet_mapDelete_same_nodup pending id hnd]
  · intro h
    simp [handleRmiResultCommand, h]

/-- Witness for C5: one pending call `"id-7"`, a matching result `"sunny"`
with `error: null`, then the same result delivered a second time. -/
theorem rmi_result_single_resolution_witness :
    handleRmiResultCommand [(("id-7"), 0)] ("id-7") (JsVal.str ("sunny"))
        JsVal.null =
      .ok ([Resolution.resolvedWith 0 (JsVal.str ("sunny"))], []) ∧
    handleRmiResultCommand (mapDelete [(("id-7"), 0)] ("id-7")) ("id-7")
        (JsVal.str ("sunny")) JsVal.null = .error () := by
  constructor
  · have h := ((rmi_result_single_resolution [(("id-7"), 0)] ("id-7")
        (JsVal.str ("sunny")) JsVal.null).1 0 rfl).1
    simpa [JsVal.truthy, mapDelete] using h
  · exact ((rmi_result_single_resolution [(("id-7"), 0)] ("id-7")
        (JsVal.str ("sunny")) JsVal.null).1 0 rfl).2 (by simp)
